import Mathlib

/-!
Verification of the nutoff-wallet orchestration layer (ContextVM/nutoff-wallet).

This file gives a shallow embedding of the wallet orchestration code:

* `src/types/wallet-api.ts` — the error constructor `createWalletApiError`
  and the projection records (`MintInfo`, `BalanceResult`, ...).
* `src/utils/ServiceUtils.ts` — `validateServiceInitialized`,
  `validateDependencies`, `withServiceError`.
* `src/utils/MintUtils.ts` — `getDefaultMintUrl`.
* `src/services/WalletService.ts` — balance aggregation, mint management,
  token operations, mint-URL resolution, lifecycle.
* `src/services/QuoteService.ts` — `checkQuoteStatus` and the guarded
  sub-service lifecycle from `src/services/BaseService.ts`.
* `src/config/ConfigService.ts` — `saveSeedToEnvFile`.

JavaScript exceptions are embedded as `Except JsError`; calls into the
external coco-cashu engine and the sqlite repositories are passed in as
function parameters (the response of the collaborator), so each theorem
quantifies over every possible engine behaviour.  Thrown `Error` objects
carry an optional machine-readable `code` field, exactly as in
`createWalletApiError`.  Object allocation (`new Database`, the manager
returned by `initializeCoco`, ...) is embedded with a fresh-handle counter:
two allocations always produce distinct handles, mirroring JS object
identity.
-/

/-- JavaScript `Error` value as thrown by this code base: a message plus an
optional machine-readable `code` property attached by
`createWalletApiError`.  The `originalError` cause chain carries no
information used by any claim and is dropped. -/
structure JsError where
  code : Option String
  message : String
  deriving Repr, DecidableEq

/-- Embeds `createWalletApiError(code, message)` from
`src/types/wallet-api.ts`: builds an `Error` with a `code` property. -/
def createWalletApiError (code : String) (message : String) : JsError :=
  { code := some code, message := message }

/-- Mint row as stored by the engine: URL, trust flag, last-update
timestamp (`updatedAt` may be absent). -/
structure Mint where
  mintUrl : String
  trusted : Bool
  updatedAt : Option Int
  deriving Repr, DecidableEq

/-- The `MintInfo` projection returned by the wallet service
(`src/types/wallet-api.ts`, `MintInfoSchema`). -/
structure MintInfo where
  mintUrl : String
  trusted : Bool
  lastChecked : Option Int
  deriving Repr, DecidableEq

/-- Converts an engine `Mint` row to the `MintInfo` projection, exactly as
done inline in `WalletService.addMint` / `trustMint` / `untrustMint` /
`listMints`. -/
def toMintInfo (mint : Mint) : MintInfo :=
  { mintUrl := mint.mintUrl, trusted := mint.trusted, lastChecked := mint.updatedAt }

/-- Embeds `ServiceUtils.validateServiceInitialized` from
`src/utils/ServiceUtils.ts`: returns the manager handle, or throws a
`WALLET_NOT_INITIALIZED` error when the manager is `null`. -/
def validateServiceInitialized (manager : Option Nat) (serviceName : String) :
    Except JsError Nat :=
  match manager with
  | none => .error (createWalletApiError "WALLET_NOT_INITIALIZED"
      (serviceName ++ " not initialized"))
  | some h => .ok h

/-- Embeds `ServiceUtils.validateDependencies` from
`src/utils/ServiceUtils.ts` at its call sites, which all pass the single
dependency record `{ repositories }`: throws `SERVICE_NOT_INITIALIZED`
naming the missing dependency when the repositories handle is `null`. -/
def validateDependencies (repositories : Option Nat) (serviceName : String) :
    Except JsError Unit :=
  match repositories with
  | none => .error (createWalletApiError "SERVICE_NOT_INITIALIZED"
      (serviceName ++ " dependencies not initialized: repositories"))
  | some _ => .ok ()

/-- Renders one `key=value` pair of the context map the way JS template
interpolation renders it inside `withServiceError`. -/
def contextPair (p : String × String) : String :=
  p.1 ++ "=" ++ p.2

/-- Renders the optional context map of `withServiceError`
(` (k1=v1, k2=v2)`), empty when no context is supplied. -/
def contextInfo (context : List (String × String)) : String :=
  match context with
  | [] => ""
  | _ => " (" ++ String.intercalate ", " (context.map contextPair) ++ ")"

/-- JS `String.prototype.toUpperCase()` on the ASCII operation names used
in this code base: uppercases every character, leaving non-letters (for
example the space in `add mint`) unchanged.  Defined structurally over
the character list so the kernel can evaluate it. -/
def jsToUpperCase (s : String) : String :=
  String.mk (s.data.map Char.toUpper)

/-- Embeds `ServiceUtils.withServiceError` from `src/utils/ServiceUtils.ts`:
runs the operation and re-wraps any thrown error as
`` `${operationName.toUpperCase()}_FAILED` `` with a
`Failed to <operationName><contextInfo>: <message>` message. -/
def withServiceError (operationName : String) (context : List (String × String))
    (operation : Except JsError α) : Except JsError α :=
  match operation with
  | .ok a => .ok a
  | .error e => .error (createWalletApiError
      (jsToUpperCase operationName ++ "_FAILED")
      ("Failed to " ++ operationName ++ contextInfo context ++ ": " ++ e.message))

/-- JS stringification of an optional boolean (`undefined` renders as the
string `undefined`), used for the `trusted` entry of the `addMint`
context map. -/
def jsShowOptBool (b : Option Bool) : String :=
  match b with
  | none => "undefined"
  | some true => "true"
  | some false => "false"

/-- JS stringification of an optional string parameter (an omitted
parameter renders as `undefined` in the context map). -/
def jsShowOptString (s : Option String) : String :=
  match s with
  | none => "undefined"
  | some v => v

/-- Embeds `getDefaultMintUrl` from `src/utils/MintUtils.ts`: the trusted
mints are enumerated in store order; an empty list throws
`NO_TRUSTED_MINTS`, otherwise the URL of the first entry is returned.
(The second `!firstMint` guard in the source is unreachable once the list
is non-empty and is absorbed by the match.) -/
def getDefaultMintUrl (trustedMints : List Mint) : Except JsError String :=
  match trustedMints with
  | [] => .error (createWalletApiError "NO_TRUSTED_MINTS" "No trusted mints available")
  | firstMint :: _ => .ok firstMint.mintUrl

/-- The `BalanceResult` shape from `src/types/wallet-api.ts`: total plus
per-mint breakdown.  The engine balance map is a JS object whose values
may be `undefined`, embedded as an association list into `Option Int`. -/
structure BalanceResult where
  total : Int
  breakdown : List (String × Option Int)
  deriving Repr, DecidableEq

/-- The accumulation loop of `WalletService.getBalance`
(`src/services/WalletService.ts:101-108`): walks the balance map and adds
every defined value to the running total, skipping `undefined` entries. -/
def getBalanceTotal (balances : List (String × Option Int)) : Int :=
  balances.foldl
    (fun total entry =>
      match entry.2 with
      | some balance => total + balance
      | none => total)
    0

/-- Embeds `WalletService.getBalance` (`src/services/WalletService.ts:91-117`).
The manager handle is the orchestrator field; `balances` is the
response of `manager.wallet.getBalances()`. -/
def wsGetBalance (manager : Option Nat) (balances : List (String × Option Int)) :
    Except JsError BalanceResult := do
  let _ ← validateServiceInitialized manager "Wallet service"
  withServiceError "get balance" []
    (pure { total := getBalanceTotal balances, breakdown := balances })

/-- Mint-quote states from the data model (`UNPAID`, `PAID`, `ISSUED`). -/
inductive MintQuoteState where
  | UNPAID
  | PAID
  | ISSUED
  deriving Repr, DecidableEq

/-- Melt-quote states from the data model (`UNPAID`, `PENDING`, `PAID`). -/
inductive MeltQuoteState where
  | UNPAID
  | PENDING
  | PAID
  deriving Repr, DecidableEq

/-- Mint-quote record as stored by `mintQuoteRepository`: a pending or
completed receive request (amount is nullable until minted). -/
structure MintQuote where
  quote : String
  mintUrl : String
  amount : Option Int
  state : MintQuoteState
  expiry : Int
  request : String
  unit : String
  deriving Repr, DecidableEq

/-- Melt-quote record as stored by `meltQuoteRepository`: a pending or
completed pay request, fully populated at creation. -/
structure MeltQuote where
  quote : String
  mintUrl : String
  amount : Int
  fee_reserve : Int
  state : MeltQuoteState
  expiry : Int
  payment_preimage : Option String
  unit : String
  deriving Repr, DecidableEq

/-- Union result type of `QuoteService.checkQuoteStatus`
(`MintQuote | MeltQuote` before the `null` case). -/
inductive QuoteRecord where
  | mintQ (q : MintQuote)
  | meltQ (q : MeltQuote)
  deriving Repr, DecidableEq

/-- Embeds `QuoteService.checkQuoteStatus`
(`src/services/QuoteService.ts:49-82`).  The repository point lookups
`getMintQuote` and `getMeltQuote` are passed in as collaborator
functions of `(mintUrl, quoteId)`; the mint-quote namespace is consulted
first, then the melt-quote namespace, and a double miss yields `null`
(embedded as `none`), not an error. -/
def checkQuoteStatus (repositories : Option Nat)
    (getMintQuote : String → String → Option MintQuote)
    (getMeltQuote : String → String → Option MeltQuote)
    (quoteId : String) (mintUrl : String) :
    Except JsError (Option QuoteRecord) := do
  let _ ← validateDependencies repositories "Quote service"
  withServiceError "check quote status" [("quoteId", quoteId), ("mintUrl", mintUrl)]
    (match getMintQuote mintUrl quoteId with
      | some mintQuote => pure (some (.mintQ mintQuote))
      | none => pure ((getMeltQuote mintUrl quoteId).map .meltQ))

/-- Concrete mint quote used by witnesses. -/
def sampleMintQuote : MintQuote :=
  { quote := "abc", mintUrl := "https://mint.example", amount := some 1000,
    state := .UNPAID, expiry := 1700000000, request := "lnbc1...", unit := "sat" }

/-- Concrete melt quote used by witnesses. -/
def sampleMeltQuote : MeltQuote :=
  { quote := "abc", mintUrl := "https://mint.example", amount := 500,
    fee_reserve := 2, state := .UNPAID, expiry := 1700000000,
    payment_preimage := none, unit := "sat" }

/-- The `filter` parameter of `listMints`
(`ListMintsParamsSchema`, values `all`, `trusted`, `untrusted`). -/
inductive MintFilter where
  | all
  | trusted
  | untrusted
  deriving Repr, DecidableEq

/-- The filtering step of `WalletService.listMints`
(`src/services/WalletService.ts:281-287`): `trusted` and `untrusted`
restrict the list, any other value (including an omitted filter) leaves
it unfiltered. -/
def applyMintFilter (filter : Option MintFilter) (allMints : List Mint) : List Mint :=
  if filter = some .trusted then
    allMints.filter (fun mint => mint.trusted)
  else if filter = some .untrusted then
    allMints.filter (fun mint => !mint.trusted)
  else
    allMints

/-- The `MintsListResult` shape from `src/types/wallet-api.ts`. -/
structure MintsListResult where
  mints : List MintInfo
  total : Nat
  trusted : Nat
  untrusted : Nat
  deriving Repr, DecidableEq

/-- Embeds `WalletService.listMints` (`src/services/WalletService.ts:266-313`).
`allMints` is the response of `manager.mint.getAllMints()`; the
projection is applied to the filtered list while all three counts are
computed over the unfiltered list. -/
def wsListMints (manager : Option Nat) (repositories : Option Nat)
    (allMints : List Mint) (filter : Option MintFilter) :
    Except JsError MintsListResult := do
  let _ ← validateServiceInitialized manager "Wallet service"
  let _ ← validateDependencies repositories "Wallet service"
  withServiceError "list mints" [("filter", jsShowOptString (filter.map (fun f =>
      match f with
      | .all => "all"
      | .trusted => "trusted"
      | .untrusted => "untrusted")))]
    (pure { mints := (applyMintFilter filter allMints).map toMintInfo,
            total := allMints.length,
            trusted := (allMints.filter (fun mint => mint.trusted)).length,
            untrusted := (allMints.filter (fun mint => !mint.trusted)).length })

/-- The `AddMintParams` shape from `src/types/wallet-api.ts`
(`trusted` optional). -/
structure AddMintParams where
  mintUrl : String
  trusted : Option Bool
  deriving Repr, DecidableEq

/-- Result of the engine call `manager.mint.addMint(url, { trusted })`:
an object carrying the stored mint row under `.mint`. -/
structure AddMintResult where
  mint : Mint
  deriving Repr, DecidableEq

/-- Embeds `WalletService.addMint` (`src/services/WalletService.ts:241-264`).
The engine call is the collaborator parameter `engineAddMint`; the
`trusted` flag passed to it is `params.trusted ?? false`, and the stored
row is projected to `MintInfo`. -/
def wsAddMint (manager : Option Nat)
    (engineAddMint : String → Bool → Except JsError AddMintResult)
    (params : AddMintParams) : Except JsError MintInfo := do
  let _ ← validateServiceInitialized manager "Wallet service"
  withServiceError "add mint"
    [("mintUrl", params.mintUrl), ("trusted", jsShowOptBool params.trusted)]
    (do
      let result ← engineAddMint params.mintUrl (params.trusted.getD false)
      pure { mintUrl := result.mint.mintUrl,
             trusted := result.mint.trusted,
             lastChecked := result.mint.updatedAt })

/-- Embeds `WalletService.getDefaultMint`
(`src/services/WalletService.ts:175-181`): validates the manager and
delegates to `getDefaultMintUrl` on the trusted-mint enumeration
returned by `manager.mint.getAllTrustedMints()`. -/
def wsGetDefaultMint (manager : Option Nat) (trustedMints : List Mint) :
    Except JsError String := do
  let _ ← validateServiceInitialized manager "Wallet service"
  getDefaultMintUrl trustedMints

/-- Embeds `WalletService.resolveMintUrl`
(`src/services/WalletService.ts:229-235`): after the manager check,
`mintUrl || (await getDefaultMintUrl(manager))` returns a truthy
(non-empty) supplied URL verbatim and otherwise falls back to
default-mint resolution; a falsy value is either an omitted argument or
the empty string. -/
def wsResolveMintUrl (manager : Option Nat) (trustedMints : List Mint)
    (mintUrl : Option String) : Except JsError String := do
  let _ ← validateServiceInitialized manager "Wallet service"
  match mintUrl with
  | some url => if url = "" then getDefaultMintUrl trustedMints else pure url
  | none => getDefaultMintUrl trustedMints

/-- Embeds the target-mint resolution shared by the tool handlers
(`src/mcp/toolHandlers.ts:36-37`,59-60,73-74,163-164):
`mintUrl || (await context.walletService.getDefaultMint())`. -/
def handlerTargetMintUrl (mintUrl : Option String) (manager : Option Nat)
    (trustedMints : List Mint) : Except JsError String :=
  match mintUrl with
  | some url =>
      if url = "" then wsGetDefaultMint manager trustedMints else .ok url
  | none => wsGetDefaultMint manager trustedMints

/-- Bearer token constructed by the engine on `wallet.send`; its internal
proof bundle is owned by cashu-ts and never inspected by this layer. -/
structure CashuToken where
  encoded : String
  deriving Repr, DecidableEq

/-- Result shape of `WalletService.sendTokens`. -/
structure SendTokensResult where
  token : CashuToken
  amount : Int
  mintUrl : String
  deriving Repr, DecidableEq

/-- Result shape of `WalletService.receiveTokens` (`{ success: boolean }`). -/
structure ReceiveTokensResult where
  success : Bool
  deriving Repr, DecidableEq

/-- Embeds `WalletService.trustMint` (`src/services/WalletService.ts:315-344`):
manager check, repositories check, then the engine `trustMint` call
followed by a repository re-read of the row, projected to `MintInfo`,
all wrapped by `withServiceError`. -/
def wsTrustMint (manager : Option Nat) (repositories : Option Nat)
    (engineTrustMint : String → Except JsError Unit)
    (getMintByUrl : String → Except JsError Mint)
    (mintUrl : String) : Except JsError MintInfo := do
  let _ ← validateServiceInitialized manager "Wallet service"
  let _ ← validateDependencies repositories "Wallet service"
  withServiceError "trust mint" [("mintUrl", mintUrl)]
    (do
      let _ ← engineTrustMint mintUrl
      let mint ← getMintByUrl mintUrl
      pure (toMintInfo mint))

/-- Embeds `WalletService.untrustMint`
(`src/services/WalletService.ts:346-375`), symmetric to `trustMint`. -/
def wsUntrustMint (manager : Option Nat) (repositories : Option Nat)
    (engineUntrustMint : String → Except JsError Unit)
    (getMintByUrl : String → Except JsError Mint)
    (mintUrl : String) : Except JsError MintInfo := do
  let _ ← validateServiceInitialized manager "Wallet service"
  let _ ← validateDependencies repositories "Wallet service"
  withServiceError "untrust mint" [("mintUrl", mintUrl)]
    (do
      let _ ← engineUntrustMint mintUrl
      let mint ← getMintByUrl mintUrl
      pure (toMintInfo mint))

/-- Embeds `WalletService.removeMint`
(`src/services/WalletService.ts:377-395`): manager check, repositories
check, then a direct repository `deleteMint`, wrapped. -/
def wsRemoveMint (manager : Option Nat) (repositories : Option Nat)
    (deleteMint : String → Except JsError Unit)
    (mintUrl : String) : Except JsError Unit := do
  let _ ← validateServiceInitialized manager "Wallet service"
  let _ ← validateDependencies repositories "Wallet service"
  withServiceError "remove mint" [("mintUrl", mintUrl)] (deleteMint mintUrl)

/-- Embeds `WalletService.receiveTokens`
(`src/services/WalletService.ts:400-421`): manager check, then the
engine `wallet.receive` call, returning `{ success: true }`, wrapped
with the token length as context. -/
def wsReceiveTokens (manager : Option Nat)
    (engineReceive : String → Except JsError Unit)
    (token : String) : Except JsError ReceiveTokensResult := do
  let _ ← validateServiceInitialized manager "Wallet service"
  withServiceError "receive tokens" [("tokenLength", toString token.length)]
    (do
      let _ ← engineReceive token
      pure { success := true })

/-- Embeds `WalletService.sendTokens`
(`src/services/WalletService.ts:423-452`): manager check, then inside
the wrapper the target mint is resolved via `resolveMintUrl` and the
engine `wallet.send` produces the bearer token. -/
def wsSendTokens (manager : Option Nat) (trustedMints : List Mint)
    (engineSend : String → Int → Except JsError CashuToken)
    (amount : Int) (mintUrl : Option String) : Except JsError SendTokensResult := do
  let _ ← validateServiceInitialized manager "Wallet service"
  withServiceError "send tokens"
    [("amount", toString amount), ("mintUrl", jsShowOptString mintUrl)]
    (do
      let targetMintUrl ← wsResolveMintUrl manager trustedMints mintUrl
      let token ← engineSend targetMintUrl amount
      pure { token := token, amount := amount, mintUrl := targetMintUrl })

/-- Embeds `WalletService.createMintQuote`
(`src/services/WalletService.ts:191-200`): manager check, then an
unwrapped pass-through to `manager.quotes.createMintQuote`. -/
def wsCreateMintQuote (manager : Option Nat)
    (engineCreateMintQuote : String → Int → Except JsError MintQuote)
    (mintUrl : String) (amount : Int) : Except JsError MintQuote := do
  let _ ← validateServiceInitialized manager "Wallet service"
  engineCreateMintQuote mintUrl amount

/-- Embeds `WalletService.createMeltQuote`
(`src/services/WalletService.ts:202-211`): manager check, then an
unwrapped pass-through to `manager.quotes.createMeltQuote`. -/
def wsCreateMeltQuote (manager : Option Nat)
    (engineCreateMeltQuote : String → String → Except JsError MeltQuote)
    (mintUrl : String) (invoice : String) : Except JsError MeltQuote := do
  let _ ← validateServiceInitialized manager "Wallet service"
  engineCreateMeltQuote mintUrl invoice

/-- Embeds `WalletService.payMeltQuote`
(`src/services/WalletService.ts:213-219`): manager check, then an
unwrapped pass-through to `manager.quotes.payMeltQuote`. -/
def wsPayMeltQuote (manager : Option Nat)
    (enginePayMeltQuote : String → String → Except JsError Unit)
    (mintUrl : String) (quoteId : String) : Except JsError Unit := do
  let _ ← validateServiceInitialized manager "Wallet service"
  enginePayMeltQuote mintUrl quoteId

/-- Embeds `WalletService.redeemMintQuote`
(`src/services/WalletService.ts:221-227`): manager check, then an
unwrapped pass-through to `manager.quotes.redeemMintQuote`. -/
def wsRedeemMintQuote (manager : Option Nat)
    (engineRedeemMintQuote : String → String → Except JsError Unit)
    (mintUrl : String) (quoteId : String) : Except JsError Unit := do
  let _ ← validateServiceInitialized manager "Wallet service"
  engineRedeemMintQuote mintUrl quoteId

/-- The error thrown by every engine-requiring wallet operation invoked
before `initialize`. -/
def walletNotInitializedError : JsError :=
  createWalletApiError "WALLET_NOT_INITIALIZED" "Wallet service not initialized"

/-- Structural substring scan over character lists, the semantics of JS
`String.prototype.includes`: true when the pattern occurs at some
position of the content. -/
def charListContains (pattern : List Char) : List Char → Bool
  | [] => pattern.isPrefixOf []
  | c :: rest => pattern.isPrefixOf (c :: rest) || charListContains pattern rest

/-- Embeds the guard `envContent.includes("COCO_SEED=")` of
`ConfigService.saveSeedToEnvFile` (`src/config/ConfigService.ts:141`). -/
def includesCocoSeedKey (content : String) : Bool :=
  charListContains "COCO_SEED=".data content.data

/-- Embeds `envContent.endsWith("\n")` for the single-character suffix
used at `src/config/ConfigService.ts:153`: checks the last character. -/
def jsEndsWithNewline (s : String) : Bool :=
  match s.data.getLast? with
  | some c => c = '\n'
  | none => false

/-- The appended line `` COCO_SEED="<mnemonic>"\n `` built at
`src/config/ConfigService.ts:150`. -/
def cocoSeedLine (mnemonic : String) : String :=
  "COCO_SEED=\"" ++ mnemonic ++ "\"\n"

/-- Embeds `ConfigService.saveSeedToEnvFile`
(`src/config/ConfigService.ts:130-165`) as a function from the current
key-file state (`none` when the file does not exist, `some content`
otherwise) to the file content after the call.  An existing file whose
content already includes the seed key is returned untouched (the code
only warns); otherwise the seed line is appended to the existing
content, preceded by a newline when that content is non-empty and does
not already end in one. -/
def saveSeedToEnvFile (file : Option String) (mnemonic : String) : String :=
  let envContent := file.getD ""
  if file.isSome && includesCocoSeedKey envContent then
    envContent
  else
    envContent ++
      (if envContent ≠ "" ∧ jsEndsWithNewline envContent = false then "\n" else "") ++
      cocoSeedLine mnemonic

/-- State of `QuoteService` (`src/services/QuoteService.ts`): the
`BaseService` flags plus the manager and repositories references. -/
structure QuoteServiceState where
  initialized : Bool
  readyState : Bool
  manager : Option Nat
  repositories : Option Nat
  deriving Repr, DecidableEq

/-- State of `EventService` (`src/services/EventService.ts`): the
`BaseService` flags plus the manager reference. -/
structure EventServiceState where
  initialized : Bool
  readyState : Bool
  manager : Option Nat
  deriving Repr, DecidableEq

/-- State of the `WalletService` orchestrator
(`src/services/WalletService.ts:30-35`): storage handle, repositories
handle, engine handle and the two owned sub-services.  `nextHandle` is
the allocation counter of the embedding: every `new Database(...)`,
`new SqliteRepositories(...)` and `initializeCoco(...)` call yields a
handle never used before, mirroring JS object identity. -/
structure WalletServiceState where
  database : Option Nat
  repositories : Option Nat
  manager : Option Nat
  quoteService : QuoteServiceState
  eventService : EventServiceState
  nextHandle : Nat
  deriving Repr, DecidableEq

/-- Embeds the success path of `QuoteService.initialize`
(`src/services/QuoteService.ts:10-27`): an already-initialized service
returns immediately and keeps its previous references (idempotent
guard); otherwise it stores the manager and repositories, enables the
watchers (external engine calls, elided on the success path), sets
`initialized` and marks itself ready. -/
def initQuoteService (qs : QuoteServiceState) (managerH repositoriesH : Nat) :
    QuoteServiceState :=
  if qs.initialized then qs
  else
    { initialized := true, readyState := true,
      manager := some managerH, repositories := some repositoriesH }

/-- Embeds the success path of `EventService.initialize`
(`src/services/EventService.ts:17-30`): guarded exactly like the quote
service; listener registration on the engine emitter is elided. -/
def initEventService (es : EventServiceState) (managerH : Nat) : EventServiceState :=
  if es.initialized then es
  else { initialized := true, readyState := true, manager := some managerH }

/-- Embeds the success path of `WalletService.initialize`
(`src/services/WalletService.ts:53-89`).  There is no idempotent guard:
the method always allocates a fresh database handle, fresh repositories
and a fresh engine manager (three draws from the allocation counter),
then initializes the two sub-services with the new handles.  Failures
of the external constructors wrap as `WALLET_INIT_FAILED` and are not
part of the modelled success path. -/
def initWalletService (st : WalletServiceState) : WalletServiceState :=
  let databaseH := st.nextHandle
  let repositoriesH := st.nextHandle + 1
  let managerH := st.nextHandle + 2
  { database := some databaseH,
    repositories := some repositoriesH,
    manager := some managerH,
    eventService := initEventService st.eventService managerH,
    quoteService := initQuoteService st.quoteService managerH repositoriesH,
    nextHandle := st.nextHandle + 3 }

/-- Orchestrator state of a freshly constructed `WalletService` (all
fields `null`, sub-services unused). -/
def freshWalletServiceState : WalletServiceState :=
  { database := none, repositories := none, manager := none,
    quoteService :=
      { initialized := false, readyState := false, manager := none, repositories := none },
    eventService := { initialized := false, readyState := false, manager := none },
    nextHandle := 0 }

/-- Embeds `QuoteService.cleanup` (`src/services/QuoteService.ts:84-89`):
releases the manager and repositories references and resets the
`BaseService` flags; never throws. -/
def cleanupQuoteService (_qs : QuoteServiceState) : QuoteServiceState :=
  { initialized := false, readyState := false, manager := none, repositories := none }

/-- Embeds `EventService.cleanup` (`src/services/EventService.ts`):
removes the emitter listeners (external), releases the manager and
resets the flags; never throws. -/
def cleanupEventService (_es : EventServiceState) : EventServiceState :=
  { initialized := false, readyState := false, manager := none }

/-- Embeds `WalletService.cleanup` (`src/services/WalletService.ts:454-466`):
closes and releases the database handle (a close failure is only logged
inside the callback, so the method itself never throws — embedded by
this function being total), cleans up both sub-services and releases
the engine reference.  The repositories field is not cleared by the
source and is preserved here. -/
def cleanupWalletService (st : WalletServiceState) : WalletServiceState :=
  { database := none,
    repositories := st.repositories,
    manager := none,
    quoteService := cleanupQuoteService st.quoteService,
    eventService := cleanupEventService st.eventService,
    nextHandle := st.nextHandle }


theorem getBalanceTotal_aux (balances : List (String × Option Int)) (acc : Int) :
    balances.foldl
      (fun total entry =>
        match entry.2 with
        | some balance => total + balance
        | none => total)
      acc = acc + (balances.map (fun p => p.2.getD 0)).sum := by
  induction balances generalizing acc with
  | nil => simp
  | cons head tail ih =>
    cases h : head.2 with
    | none => simp [List.foldl, h, ih]
    | some v => simp [List.foldl, h, ih]; ring

theorem getBalanceTotal_eq_sum (balances : List (String × Option Int)) :
    getBalanceTotal balances = (balances.map (fun p => p.2.getD 0)).sum := by
  have h := getBalanceTotal_aux balances 0
  simpa [getBalanceTotal] using h

/-- C1: for every balance map handed back by the engine, `getBalance`
succeeds, its `total` is the sum of all defined per-mint values (absent
values count as zero), and the returned `breakdown` is exactly the
engine balance map. -/
theorem getBalance_total_eq_sum (h : Nat) (balances : List (String × Option Int)) :
    wsGetBalance (some h) balances =
      .ok { total := (balances.map (fun p => p.2.getD 0)).sum,
            breakdown := balances } := by
  have hdef : wsGetBalance (some h) balances =
      .ok { total := getBalanceTotal balances, breakdown := balances } := rfl
  rw [hdef, getBalanceTotal_eq_sum]

/-- C2: `checkQuoteStatus` returns the mint-quote record for
`(mintUrl, quoteId)` when one exists (so the mint-quote namespace always
wins on a colliding id); otherwise the melt-quote record when one
exists; otherwise `null`, never an error. -/
theorem checkQuoteStatus_precedence (repoH : Nat)
    (getMintQuote : String → String → Option MintQuote)
    (getMeltQuote : String → String → Option MeltQuote)
    (quoteId : String) (mintUrl : String) :
    (∀ q, getMintQuote mintUrl quoteId = some q →
      checkQuoteStatus (some repoH) getMintQuote getMeltQuote quoteId mintUrl =
        .ok (some (.mintQ q))) ∧
    (getMintQuote mintUrl quoteId = none →
      ∀ q, getMeltQuote mintUrl quoteId = some q →
        checkQuoteStatus (some repoH) getMintQuote getMeltQuote quoteId mintUrl =
          .ok (some (.meltQ q))) ∧
    (getMintQuote mintUrl quoteId = none →
      getMeltQuote mintUrl quoteId = none →
        checkQuoteStatus (some repoH) getMintQuote getMeltQuote quoteId mintUrl =
          .ok none) := by
  refine ⟨fun q hq => ?_, fun hmint q hq => ?_, fun hmint hmelt => ?_⟩ <;>
    simp [checkQuoteStatus, validateDependencies, withServiceError, *] <;>
    rfl

/-- C2 witness: on concrete repositories the three branches of
`checkQuoteStatus_precedence` compute as stated — a collision returns
the mint quote, a melt-only id returns the melt quote, and a double
miss returns `null`. -/
theorem checkQuoteStatus_precedence_witness :
    checkQuoteStatus (some 0) (fun _ _ => some sampleMintQuote)
        (fun _ _ => some sampleMeltQuote) "abc" "https://mint.example" =
      .ok (some (.mintQ sampleMintQuote)) ∧
    checkQuoteStatus (some 0) (fun _ _ => none)
        (fun _ _ => some sampleMeltQuote) "abc" "https://mint.example" =
      .ok (some (.meltQ sampleMeltQuote)) ∧
    checkQuoteStatus (some 0) (fun _ _ => none)
        (fun _ _ => none) "abc" "https://mint.example" =
      .ok none :=
  ⟨(checkQuoteStatus_precedence 0 (fun _ _ => some sampleMintQuote)
      (fun _ _ => some sampleMeltQuote) "abc" "https://mint.example").1
      sampleMintQuote rfl,
   ((checkQuoteStatus_precedence 0 (fun _ _ => none)
      (fun _ _ => some sampleMeltQuote) "abc" "https://mint.example").2.1
      rfl sampleMeltQuote rfl),
   ((checkQuoteStatus_precedence 0 (fun _ _ => none)
      (fun _ _ => none) "abc" "https://mint.example").2.2 rfl rfl)⟩

theorem length_filter_add_length_filter_not (l : List Mint) :
    (l.filter (fun mint => mint.trusted)).length +
      (l.filter (fun mint => !mint.trusted)).length = l.length := by
  induction l with
  | nil => rfl
  | cons head tail ih =>
    cases h : head.trusted <;> simp [List.filter, h] <;> omega

/-- C6: for every mint set and every filter (or an omitted one),
`listMints` returns the mints restricted to the filter, while `total`,
`trusted` and `untrusted` are computed over the unfiltered set; hence
`total = trusted + untrusted` and `total` does not depend on the
filter argument. -/
theorem listMints_counts_unfiltered (managerH repoH : Nat)
    (allMints : List Mint) (filter : Option MintFilter) :
    (wsListMints (some managerH) (some repoH) allMints filter =
      .ok { mints := (applyMintFilter filter allMints).map toMintInfo,
            total := allMints.length,
            trusted := (allMints.filter (fun mint => mint.trusted)).length,
            untrusted := (allMints.filter (fun mint => !mint.trusted)).length }) ∧
    (∀ r, wsListMints (some managerH) (some repoH) allMints filter = .ok r →
      r.total = r.trusted + r.untrusted) ∧
    (∀ otherFilter : Option MintFilter, ∀ r r2,
      wsListMints (some managerH) (some repoH) allMints filter = .ok r →
      wsListMints (some managerH) (some repoH) allMints otherFilter = .ok r2 →
      r.total = r2.total) := by
  have hdef : ∀ f : Option MintFilter,
      wsListMints (some managerH) (some repoH) allMints f =
        .ok { mints := (applyMintFilter f allMints).map toMintInfo,
              total := allMints.length,
              trusted := (allMints.filter (fun mint => mint.trusted)).length,
              untrusted := (allMints.filter (fun mint => !mint.trusted)).length } :=
    fun f => rfl
  refine ⟨hdef filter, fun r hr => ?_, fun otherFilter r r2 hr hr2 => ?_⟩
  · rw [hdef filter] at hr
    cases hr
    simpa using (length_filter_add_length_filter_not allMints).symm
  · rw [hdef filter] at hr
    rw [hdef otherFilter] at hr2
    cases hr
    cases hr2
    rfl

/-- C6 witness: a concrete two-mint store listed with the `trusted`
filter keeps only the trusted mint while the counts cover both mints. -/
theorem listMints_counts_unfiltered_witness :
    wsListMints (some 1) (some 2)
        [ { mintUrl := "https://a", trusted := true, updatedAt := some 10 },
          { mintUrl := "https://b", trusted := false, updatedAt := none } ]
        (some .trusted) =
      .ok { mints := [ { mintUrl := "https://a", trusted := true, lastChecked := some 10 } ],
            total := 2, trusted := 1, untrusted := 1 } ∧
    (2 : Nat) = 1 + 1 := by
  have h := (listMints_counts_unfiltered 1 2
      [ { mintUrl := "https://a", trusted := true, updatedAt := some 10 },
        { mintUrl := "https://b", trusted := false, updatedAt := none } ]
      (some .trusted)).1
  have h1 : wsListMints (some 1) (some 2)
      [ { mintUrl := "https://a", trusted := true, updatedAt := some 10 },
        { mintUrl := "https://b", trusted := false, updatedAt := none } ]
      (some .trusted) =
      .ok { mints := [ { mintUrl := "https://a", trusted := true, lastChecked := some 10 } ],
            total := 2, trusted := 1, untrusted := 1 } := by
    simpa [applyMintFilter, toMintInfo, List.filter] using h
  refine ⟨h1, ?_⟩
  exact (listMints_counts_unfiltered 1 2
      [ { mintUrl := "https://a", trusted := true, updatedAt := some 10 },
        { mintUrl := "https://b", trusted := false, updatedAt := none } ]
      (some .trusted)).2.1
      { mints := [ { mintUrl := "https://a", trusted := true, lastChecked := some 10 } ],
        total := 2, trusted := 1, untrusted := 1 } h1

/-- C4 counterexample: with a failing engine, `addMint` wraps the error
with code `ADD MINT_FAILED` — the uppercased operation name `add mint`
keeps its space — and not `ADD_MINT_FAILED` as the claim states. -/
theorem addMint_code_counterexample :
    ∃ wrapped : JsError,
      wsAddMint (some 0)
          (fun _ _ => .error { code := none, message := "engine failure" })
          { mintUrl := "https://mint.example", trusted := none } = .error wrapped ∧
      wrapped.code ≠ some "ADD_MINT_FAILED" ∧
      wrapped.code = some "ADD MINT_FAILED" :=
  ⟨_, rfl, by decide, by decide⟩

/-- C4 amended: `addMint` without a `trusted` argument invokes the engine
with `trusted = false` and returns the `MintInfo` projection of the
stored row; when the engine call fails, it fails with a wrapped error
whose code is `ADD MINT_FAILED` (uppercased operation name plus the
`_FAILED` suffix, with the space of `add mint` preserved). -/
theorem addMint_defaults_untrusted (managerH : Nat)
    (engineAddMint : String → Bool → Except JsError AddMintResult)
    (url : String) :
    (∀ r, engineAddMint url false = .ok r →
      wsAddMint (some managerH) engineAddMint { mintUrl := url, trusted := none } =
        .ok (toMintInfo r.mint)) ∧
    (∀ e, engineAddMint url false = .error e →
      ∃ wrapped,
        wsAddMint (some managerH) engineAddMint { mintUrl := url, trusted := none } =
          .error wrapped ∧ wrapped.code = some "ADD MINT_FAILED") := by
  have hdef : wsAddMint (some managerH) engineAddMint { mintUrl := url, trusted := none } =
      withServiceError "add mint" [("mintUrl", url), ("trusted", "undefined")]
        (do
          let result ← engineAddMint url false
          pure (toMintInfo result.mint)) := rfl
  constructor
  · intro r hr
    rw [hdef]
    show withServiceError "add mint" [("mintUrl", url), ("trusted", "undefined")]
        ((engineAddMint url false).bind (fun result => pure (toMintInfo result.mint))) = _
    rw [hr]
    rfl
  · intro e he
    rw [hdef]
    show ∃ wrapped,
      withServiceError "add mint" [("mintUrl", url), ("trusted", "undefined")]
          ((engineAddMint url false).bind (fun result => pure (toMintInfo result.mint))) =
        .error wrapped ∧ wrapped.code = some "ADD MINT_FAILED"
    rw [he]
    refine ⟨_, rfl, ?_⟩
    show some (jsToUpperCase "add mint" ++ "_FAILED") = some "ADD MINT_FAILED"
    decide

/-- C4 amended witness: on a concrete engine that stores the row as
requested, `addMint` without `trusted` yields an untrusted mint; on a
concrete failing engine it fails with code `ADD MINT_FAILED`. -/
theorem addMint_defaults_untrusted_witness :
    wsAddMint (some 0)
        (fun url trusted =>
          .ok { mint := { mintUrl := url, trusted := trusted, updatedAt := some 5 } })
        { mintUrl := "https://mint.example", trusted := none } =
      .ok { mintUrl := "https://mint.example", trusted := false, lastChecked := some 5 } ∧
    (∃ wrapped,
      wsAddMint (some 0) (fun _ _ => .error { code := none, message := "boom" })
          { mintUrl := "https://mint.example", trusted := none } = .error wrapped ∧
      wrapped.code = some "ADD MINT_FAILED") :=
  ⟨(addMint_defaults_untrusted 0
      (fun url trusted =>
        .ok { mint := { mintUrl := url, trusted := trusted, updatedAt := some 5 } })
      "https://mint.example").1
      { mint := { mintUrl := "https://mint.example", trusted := false, updatedAt := some 5 } }
      rfl,
   (addMint_defaults_untrusted 0 (fun _ _ => .error { code := none, message := "boom" })
      "https://mint.example").2 { code := none, message := "boom" } rfl⟩

/-- C3: default-mint resolution on an empty trusted-mint enumeration
fails with code `NO_TRUSTED_MINTS`; on a non-empty enumeration it
returns the URL of the first entry; the resolver is a pure function of
the enumeration, so repeated calls without an intervening mutation
return the same URL, and `resolveMintUrl` without an argument delegates
to it. -/
theorem getDefaultMintUrl_first_trusted (trustedMints : List Mint) :
    (trustedMints = [] →
      getDefaultMintUrl trustedMints =
        .error (createWalletApiError "NO_TRUSTED_MINTS" "No trusted mints available")) ∧
    (∀ m rest, trustedMints = m :: rest →
      getDefaultMintUrl trustedMints = .ok m.mintUrl) ∧
    (getDefaultMintUrl trustedMints = getDefaultMintUrl trustedMints) ∧
    (∀ managerH : Nat,
      wsResolveMintUrl (some managerH) trustedMints none =
        getDefaultMintUrl trustedMints) := by
  refine ⟨fun h => ?_, fun m rest h => ?_, rfl, fun managerH => ?_⟩
  · rw [h]; rfl
  · rw [h]; rfl
  · rfl

/-- C3 witness: the resolver computes as stated on an empty store and on
a concrete two-mint store. -/
theorem getDefaultMintUrl_first_trusted_witness :
    getDefaultMintUrl [] =
      .error (createWalletApiError "NO_TRUSTED_MINTS" "No trusted mints available") ∧
    getDefaultMintUrl
        [ { mintUrl := "https://a", trusted := true, updatedAt := none },
          { mintUrl := "https://b", trusted := true, updatedAt := none } ] =
      .ok "https://a" :=
  ⟨(getDefaultMintUrl_first_trusted []).1 rfl,
   (getDefaultMintUrl_first_trusted
      [ { mintUrl := "https://a", trusted := true, updatedAt := none },
        { mintUrl := "https://b", trusted := true, updatedAt := none } ]).2.1
      { mintUrl := "https://a", trusted := true, updatedAt := none }
      [ { mintUrl := "https://b", trusted := true, updatedAt := none } ] rfl⟩

/-- C10: an empty-string mint URL is falsy and is treated exactly like an
omitted one: `resolveMintUrl ""` performs default-mint resolution — the
first trusted mint URL on a non-empty store, a `NO_TRUSTED_MINTS`
failure on an empty one — and the tool-handler target resolution does
the same. -/
theorem resolveMintUrl_empty_string (managerH : Nat) (trustedMints : List Mint) :
    (wsResolveMintUrl (some managerH) trustedMints (some "") =
      getDefaultMintUrl trustedMints) ∧
    (trustedMints = [] →
      ∃ e, wsResolveMintUrl (some managerH) trustedMints (some "") = .error e ∧
        e.code = some "NO_TRUSTED_MINTS") ∧
    (∀ m rest, trustedMints = m :: rest →
      wsResolveMintUrl (some managerH) trustedMints (some "") = .ok m.mintUrl) ∧
    (handlerTargetMintUrl (some "") (some managerH) trustedMints =
      getDefaultMintUrl trustedMints) := by
  refine ⟨rfl, fun h => ?_, fun m rest h => ?_, rfl⟩
  · rw [h]
    exact ⟨_, rfl, rfl⟩
  · rw [h]
    rfl

/-- C10 witness: with no trusted mints, `resolveMintUrl ""` fails with
`NO_TRUSTED_MINTS`; with a trusted mint present it returns that mint
and not the supplied empty string. -/
theorem resolveMintUrl_empty_string_witness :
    (∃ e, wsResolveMintUrl (some 0) [] (some "") = .error e ∧
      e.code = some "NO_TRUSTED_MINTS") ∧
    wsResolveMintUrl (some 0)
        [ { mintUrl := "https://a", trusted := true, updatedAt := none } ]
        (some "") = .ok "https://a" :=
  ⟨(resolveMintUrl_empty_string 0 []).2.1 rfl,
   (resolveMintUrl_empty_string 0
      [ { mintUrl := "https://a", trusted := true, updatedAt := none } ]).2.2.1
      { mintUrl := "https://a", trusted := true, updatedAt := none } [] rfl⟩

/-- C7: every engine-requiring wallet operation — `getBalance`, `addMint`,
`trustMint`, `untrustMint`, `removeMint`, `listMints`, `sendTokens`,
`receiveTokens`, the quote pass-throughs and `resolveMintUrl` — invoked
with a `null` manager returns the `WALLET_NOT_INITIALIZED` error.  Each
equation fixes the result to a constant independent of every
repository, engine and store argument, so no collaborator is invoked
and no state is touched. -/
theorem uninitialized_ops_fail (balances : List (String × Option Int))
    (engineAddMint : String → Bool → Except JsError AddMintResult)
    (params : AddMintParams) (repositories : Option Nat)
    (engineTrustMint engineUntrustMint : String → Except JsError Unit)
    (getMintByUrl : String → Except JsError Mint)
    (deleteMint : String → Except JsError Unit)
    (allMints trustedMints : List Mint) (filter : Option MintFilter)
    (engineSend : String → Int → Except JsError CashuToken)
    (engineReceive : String → Except JsError Unit)
    (engineCreateMintQuote : String → Int → Except JsError MintQuote)
    (engineCreateMeltQuote : String → String → Except JsError MeltQuote)
    (enginePayMeltQuote engineRedeemMintQuote : String → String → Except JsError Unit)
    (mintUrl : String) (optMintUrl : Option String)
    (amount : Int) (token invoice quoteId : String) :
    wsGetBalance none balances = .error walletNotInitializedError ∧
    wsAddMint none engineAddMint params = .error walletNotInitializedError ∧
    wsTrustMint none repositories engineTrustMint getMintByUrl mintUrl =
      .error walletNotInitializedError ∧
    wsUntrustMint none repositories engineUntrustMint getMintByUrl mintUrl =
      .error walletNotInitializedError ∧
    wsRemoveMint none repositories deleteMint mintUrl =
      .error walletNotInitializedError ∧
    wsListMints none repositories allMints filter =
      .error walletNotInitializedError ∧
    wsSendTokens none trustedMints engineSend amount optMintUrl =
      .error walletNotInitializedError ∧
    wsReceiveTokens none engineReceive token = .error walletNotInitializedError ∧
    wsCreateMintQuote none engineCreateMintQuote mintUrl amount =
      .error walletNotInitializedError ∧
    wsCreateMeltQuote none engineCreateMeltQuote mintUrl invoice =
      .error walletNotInitializedError ∧
    wsPayMeltQuote none enginePayMeltQuote mintUrl quoteId =
      .error walletNotInitializedError ∧
    wsRedeemMintQuote none engineRedeemMintQuote mintUrl quoteId =
      .error walletNotInitializedError ∧
    wsResolveMintUrl none trustedMints optMintUrl =
      .error walletNotInitializedError ∧
    wsGetDefaultMint none trustedMints = .error walletNotInitializedError :=
  ⟨rfl, rfl, rfl, rfl, rfl, rfl, rfl, rfl, rfl, rfl, rfl, rfl, rfl, rfl⟩

/-- C8: when the key file already contains the seed key its content is
returned entirely unchanged; otherwise exactly one line of the form
`` COCO_SEED="<mnemonic>" `` is appended (with a separating newline
only when the preserved content needs one), and the existing content is
preserved as an exact prefix. -/
theorem saveSeedToEnvFile_append_once (file : Option String) (mnemonic : String) :
    (∀ c, file = some c → includesCocoSeedKey c = true →
      saveSeedToEnvFile file mnemonic = c) ∧
    (includesCocoSeedKey (file.getD "") = false →
      ∃ sep, (sep = "" ∨ sep = "\n") ∧
        saveSeedToEnvFile file mnemonic =
          file.getD "" ++ sep ++ ("COCO_SEED=\"" ++ mnemonic ++ "\"\n")) := by
  constructor
  · intro c hc hkey
    subst hc
    simp [saveSeedToEnvFile, hkey]
  · intro hkey
    cases file with
    | none =>
        refine ⟨"", Or.inl rfl, ?_⟩
        simp [saveSeedToEnvFile, cocoSeedLine, jsEndsWithNewline]
    | some c =>
        simp only [Option.getD] at hkey
        by_cases hnl : c ≠ "" ∧ jsEndsWithNewline c = false
        · refine ⟨"\n", Or.inr rfl, ?_⟩
          simp [saveSeedToEnvFile, hkey, hnl, cocoSeedLine, String.append_assoc]
        · refine ⟨"", Or.inl rfl, ?_⟩
          simp [saveSeedToEnvFile, hkey, hnl, cocoSeedLine, String.append_assoc]

/-- C8 witness: a file already holding the key is untouched; a file
without the key and without a trailing newline gets a separating
newline plus exactly the seed line; a missing file ends up holding just
the seed line. -/
theorem saveSeedToEnvFile_append_once_witness :
    saveSeedToEnvFile (some "COCO_SEED=\"old words\"\n") "new words" =
      "COCO_SEED=\"old words\"\n" ∧
    saveSeedToEnvFile (some "FOO=1") "word list" =
      "FOO=1" ++ "\n" ++ ("COCO_SEED=\"" ++ "word list" ++ "\"\n") ∧
    saveSeedToEnvFile none "word list" =
      "" ++ "" ++ ("COCO_SEED=\"" ++ "word list" ++ "\"\n") := by
  refine ⟨(saveSeedToEnvFile_append_once (some "COCO_SEED=\"old words\"\n")
      "new words").1 _ rfl (by decide), ?_, ?_⟩
  · have h := (saveSeedToEnvFile_append_once (some "FOO=1") "word list").2 (by decide)
    obtain ⟨sep, hsep, heq⟩ := h
    cases hsep with
    | inl h0 =>
        subst h0
        exact absurd heq (by decide)
    | inr h1 =>
        subst h1
        exact heq
  · have h := (saveSeedToEnvFile_append_once none "word list").2 (by decide)
    obtain ⟨sep, hsep, heq⟩ := h
    cases hsep with
    | inl h0 =>
        subst h0
        exact heq
    | inr h1 =>
        subst h1
        exact absurd heq (by decide)

theorem initQuoteService_initialized (qs : QuoteServiceState) (a b : Nat) :
    (initQuoteService qs a b).initialized = true := by
  by_cases h : qs.initialized <;> simp [initQuoteService, h]

theorem initEventService_initialized (es : EventServiceState) (a : Nat) :
    (initEventService es a).initialized = true := by
  by_cases h : es.initialized <;> simp [initEventService, h]

theorem initQuoteService_guarded (qs : QuoteServiceState) (a b c d : Nat) :
    initQuoteService (initQuoteService qs a b) c d = initQuoteService qs a b := by
  by_cases h : qs.initialized <;> simp [initQuoteService, h]

theorem initEventService_guarded (es : EventServiceState) (a c : Nat) :
    initEventService (initEventService es a) c = initEventService es a := by
  by_cases h : es.initialized <;> simp [initEventService, h]

/-- C5 counterexample: starting from a fresh orchestrator, one successful
`initialize` followed by a second one leaves the orchestrator in a
different state — the second call re-allocates the storage and engine
handles instead of being a no-op. -/
theorem initialize_again_changes_state_counterexample :
    initWalletService (initWalletService freshWalletServiceState) ≠
      initWalletService freshWalletServiceState ∧
    (initWalletService (initWalletService freshWalletServiceState)).manager ≠
      (initWalletService freshWalletServiceState).manager ∧
    (initWalletService (initWalletService freshWalletServiceState)).database ≠
      (initWalletService freshWalletServiceState).database := by
  decide

/-- C5 amended: re-invoking `WalletService.initialize` after a success is
not an idempotent no-op at the orchestrator: the second call succeeds
but replaces the storage handle, the repositories handle and the engine
handle with freshly allocated ones.  Only the owned sub-services carry
the idempotent guard: the quote service and event service states are
left exactly unchanged by the repeated call. -/
theorem initialize_reallocates_subservices_guarded (st : WalletServiceState) :
    (initWalletService (initWalletService st)).manager ≠
      (initWalletService st).manager ∧
    (initWalletService (initWalletService st)).database ≠
      (initWalletService st).database ∧
    (initWalletService (initWalletService st)).repositories ≠
      (initWalletService st).repositories ∧
    (initWalletService (initWalletService st)).quoteService =
      (initWalletService st).quoteService ∧
    (initWalletService (initWalletService st)).eventService =
      (initWalletService st).eventService := by
  refine ⟨?_, ?_, ?_, ?_, ?_⟩
  · simp [initWalletService]
  · simp [initWalletService]
  · simp [initWalletService]
  · simp [initWalletService, initQuoteService_guarded]
  · simp [initWalletService, initEventService_guarded]

/-- C9: `cleanup` is embedded as a total function (close failures are
swallowed by the logging callback, so no error is raised); it is
idempotent, it is a no-op on a fresh uninitialized orchestrator, and
after it the storage and engine handles are released. -/
theorem cleanup_idempotent_and_safe (st : WalletServiceState) :
    cleanupWalletService (cleanupWalletService st) = cleanupWalletService st ∧
    (cleanupWalletService st).database = none ∧
    (cleanupWalletService st).manager = none ∧
    cleanupWalletService freshWalletServiceState = freshWalletServiceState :=
  ⟨rfl, rfl, rfl, rfl⟩
